import Mathlib

/-!
Shallow embedding of the Tic-Tac-Toe game engine of this repository
(models `Gameboard` from the Gameboard model file, `Player` from
js/models/Player.js and `Game` from js/models/Game.js), together with
theorems settling the specification claims about it.

Modelling conventions:
* a board cell is a `String`: `""` is the empty cell, anything else a mark
  (the JS code stores strings and tests truthiness, i.e. non-emptiness);
* a JS `throw` is `Except.error msg`; methods that can throw return
  `Except String α` paired with the (possibly mutated) receiver state,
  with the receiver unchanged on `error` (a throw aborts before mutation);
* a JS index argument is an `Int` (`Number.isInteger` admits any integer;
  non-integer numbers always fail `_isValidIndex`, exactly like the
  out-of-range integers this model covers);
* `new Date()` timestamps are an explicit `now : Nat` argument; `Date`
  values stored in fields are `Option Nat` (`none` is JS `null`).
-/

namespace TicTacToe

/-- One board: the `_board` field of the JS `Gameboard` class, an array of
nine strings (`""` for an empty cell).  The length is not enforced by the
type, exactly as in JS; `Gameboard.fromJSON` can in principle install any
list. -/
structure Gameboard where
  board : List String
deriving DecidableEq, Repr

/-- The JS `Gameboard` constructor: `this.reset()` leaves nine empty cells. -/
def Gameboard.new : Gameboard :=
  ⟨List.replicate 9 ""⟩

/-- Model of `this._winningCombinations`: 3 rows, 3 columns, 2 diagonals, in source
order. -/
def winningCombinations : List (Nat × Nat × Nat) :=
  [(0, 1, 2), (3, 4, 5), (6, 7, 8),
   (0, 3, 6), (1, 4, 7), (2, 5, 8),
   (0, 4, 8), (2, 4, 6)]

/-- Reading `this._board[i]`: out-of-range access yields `undefined`, which
behaves like the empty cell under the truthiness tests the scanning code
performs, so the model defaults to `""`. -/
def cellAt (b : List String) (i : Nat) : String :=
  b.getD i ""

/-- The loop body of `checkWinner` / `getWinningCombination`:
`board[a] && board[a] === board[b] && board[a] === board[c]`. -/
def lineMatches (b : List String) (t : Nat × Nat × Nat) : Bool :=
  (cellAt b t.1 != "") && (cellAt b t.1 == cellAt b t.2.1)
    && (cellAt b t.1 == cellAt b t.2.2)

/-- Model of `Gameboard.checkWinner`: first matching triple's mark, else `null`. -/
def Gameboard.checkWinner (g : Gameboard) : Option String :=
  (winningCombinations.find? (lineMatches g.board)).map
    (fun t => cellAt g.board t.1)

/-- Model of `Gameboard.getWinningCombination`: first matching triple itself, else
`null`. -/
def Gameboard.getWinningCombination (g : Gameboard) : Option (Nat × Nat × Nat) :=
  winningCombinations.find? (lineMatches g.board)

/-- Model of `Gameboard._isValidIndex`: `Number.isInteger(index) && index >= 0 &&
index <= 8` (the integer part is carried by the `Int` type). -/
def isValidIndex (index : Int) : Bool :=
  decide (0 ≤ index ∧ index ≤ 8)

/-- Model of `Gameboard.setMark(index, symbol)`: throws on a bad index or symbol,
returns `true` and mutates on an empty target cell, returns `false`
without mutating on an occupied one. -/
def Gameboard.setMark (g : Gameboard) (index : Int) (symbol : String) :
    Except String Bool × Gameboard :=
  if !isValidIndex index then
    (Except.error "Invalid board index", g)
  else if !(symbol == "X" || symbol == "O") then
    (Except.error "Invalid symbol. Must be X or O", g)
  else if cellAt g.board index.toNat == "" then
    (Except.ok true, ⟨g.board.set index.toNat symbol⟩)
  else
    (Except.ok false, g)

/-- Model of `Gameboard.isFull`: `this._board.every(cell => cell !== '')`. -/
def Gameboard.isFull (g : Gameboard) : Bool :=
  g.board.all (fun cell => cell != "")

/-- Model of `Gameboard.getEmptyPositions`: map each cell to its index or `null`,
then drop the `null`s (`filterMap` is that map-then-filter composition). -/
def Gameboard.getEmptyPositions (g : Gameboard) : List Nat :=
  g.board.enum.filterMap (fun p => if p.2 == "" then some p.1 else none)

/-- Model of `Gameboard.getBoard`: a defensive copy; in the value model it is the
list itself. -/
def Gameboard.getBoard (g : Gameboard) : List String :=
  g.board

/-- Model of `Gameboard.reset`: nine empty cells, whatever the previous state. -/
def Gameboard.reset (_g : Gameboard) : Gameboard :=
  ⟨List.replicate 9 ""⟩

/-- Model of `Gameboard.toJSON` produces `{ board: this.getBoard() }`; the model of
that JSON value is the `board` field when present and an array, `none`
when the field is missing or not an array. -/
def Gameboard.toJSON (g : Gameboard) : Option (List String) :=
  some g.getBoard

/-- Model of `Gameboard.fromJSON(data)`: starts from a fresh board and copies
`data.board` over it only when it is an array of length exactly 9
(`data.board && Array.isArray(data.board) && data.board.length === 9`).
`none` models a missing `board` field or a non-array value. -/
def Gameboard.fromJSON (data : Option (List String)) : Gameboard :=
  match data with
  | some b => if b.length = 9 then ⟨b⟩ else Gameboard.new
  | none => Gameboard.new

/-- The triple `t` is a winning line on board `b`: its first cell is
non-empty and all three cells agree (the propositional reading of the
scan's condition). -/
def winningLine (b : List String) (t : Nat × Nat × Nat) : Prop :=
  cellAt b t.1 ≠ "" ∧ cellAt b t.1 = cellAt b t.2.1 ∧ cellAt b t.1 = cellAt b t.2.2

/-- The JS `Player` class: two string-valued fields.  The constructor
assigns `this._name` / `this._symbol` directly (see
`Player.construct`). -/
structure Player where
  name : String
  symbol : String
deriving DecidableEq, Repr

/-- The JS `Player` constructor: `this._name = name; this._symbol = symbol;`
— a direct field write that bypasses the validating `name` / `symbol`
setters, so NO validation happens at construction. -/
def Player.construct (name symbol : String) : Player :=
  ⟨name, symbol⟩

/-- JS whitespace for `String.prototype.trim` (the kinds that matter
here). -/
def isJsSpace (c : Char) : Bool :=
  c == ' ' || c == '\t' || c == '\n' || c == '\r'

/-- JS `newName.trim()`: strip leading and trailing whitespace. -/
def jsTrim (s : String) : String :=
  String.mk (((s.data.dropWhile isJsSpace).reverse.dropWhile isJsSpace).reverse)

/-- The JS `set name(newName)` accessor: rejects an empty-after-trim
string (the `typeof` check is carried by the `String` type), otherwise
stores the trimmed name. -/
def Player.setName (p : Player) (newName : String) : Except String Player :=
  if (jsTrim newName).length = 0 then
    Except.error "Player name must be a non-empty string"
  else
    Except.ok { p with name := jsTrim newName }

/-- The JS `set symbol(newSymbol)` accessor: rejects anything outside
`['X', 'O']`. -/
def Player.setSymbol (p : Player) (newSymbol : String) : Except String Player :=
  if !(newSymbol == "X" || newSymbol == "O") then
    Except.error "Player symbol must be either X or O"
  else
    Except.ok { p with symbol := newSymbol }

/-- Model of `Player.toJSON`: `{ name, symbol }`. -/
def Player.toJSON (p : Player) : String × String :=
  (p.name, p.symbol)

/-- Model of `Player.fromJSON(data)`: `new Player(data.name, data.symbol)`. -/
def Player.fromJSON (data : String × String) : Player :=
  Player.construct data.1 data.2

/-- One `_gameHistory` entry: `{ player, symbol, position, timestamp }`. -/
structure Move where
  player : String
  symbol : String
  position : Int
  timestamp : Nat
deriving DecidableEq, Repr

/-- The JS `Game` class state: `this._players` (always the two-element
array `[player1, player2]`), `this._gameboard`, `this._currentPlayerIndex`,
`this._gameActive`, `this._gameHistory`, `this._startTime`,
`this._endTime`. -/
structure Game where
  player1 : Player
  player2 : Player
  gameboard : Gameboard
  currentPlayerIndex : Nat
  gameActive : Bool
  gameHistory : List Move
  startTime : Option Nat
  endTime : Option Nat
deriving DecidableEq, Repr

/-- The JS `Game` constructor. -/
def Game.new (p1 p2 : Player) (gb : Gameboard) : Game :=
  { player1 := p1, player2 := p2, gameboard := gb,
    currentPlayerIndex := 0, gameActive := false, gameHistory := [],
    startTime := none, endTime := none }

/-- Model of `Game.getCurrentPlayer`: `this._players[this._currentPlayerIndex]`
(the index is 0 or 1 in every state the engine itself produces). -/
def Game.getCurrentPlayer (g : Game) : Player :=
  if g.currentPlayerIndex = 0 then g.player1 else g.player2

/-- Model of `Game.getPlayers`: a copy of the two-element players array. -/
def Game.getPlayers (g : Game) : List Player :=
  [g.player1, g.player2]

/-- Model of `Game.startGame`: activates, rewinds to player 0, clears the history,
stamps the start time, clears the end time, resets the board. -/
def Game.startGame (g : Game) (now : Nat) : Game :=
  { g with gameActive := true, currentPlayerIndex := 0, gameHistory := [],
           startTime := some now, endTime := none,
           gameboard := g.gameboard.reset }

/-- JS truthiness of a nullable string (`null` and `""` are falsy). -/
def truthyStr : Option String → Bool
  | some s => s != ""
  | none => false

/-- The object `Game.getGameState` returns: the spread of
`Gameboard.getGameState` (board, winner, isFull, isGameOver,
winningCombination) plus the Game-level fields.  `currentPlayer` is
`Option Player` because the JS slot holds `this._players[idx]`, a nullable
object reference; for the indices 0/1 the engine produces it is always a
player, modelled as `some`. -/
structure GameState where
  board : List String
  winner : Option String
  isFull : Bool
  isGameOver : Bool
  winningCombination : Option (Nat × Nat × Nat)
  currentPlayer : Option Player
  players : List Player
  isGameActive : Bool
  winningPlayer : Option Player
  gameHistory : List Move
  startTime : Option Nat
  endTime : Option Nat
  gameDuration : Option Int
deriving DecidableEq, Repr

/-- Model of `Gameboard.getGameState`, the board-level part that `Game.getGameState`
spreads into its result. -/
def Gameboard.getGameState (g : Gameboard) :
    List String × Option String × Bool × Bool × Option (Nat × Nat × Nat) :=
  (g.getBoard, g.checkWinner, g.isFull,
   truthyStr g.checkWinner || g.isFull, g.getWinningCombination)

/-- Model of `Game.getGameState`: spreads the board state and adds current player,
players, active flag, winning player (`players.find` on the winner mark,
only when the winner is truthy), history copy, timestamps and duration
(`endTime && startTime ? endTime - startTime : null`). -/
def Game.getGameState (g : Game) : GameState :=
  let bs := g.gameboard.getGameState
  let winner := bs.2.1
  let winningPlayer :=
    if truthyStr winner then
      g.getPlayers.find? (fun p => some p.symbol == winner)
    else
      none
  { board := bs.1, winner := winner, isFull := bs.2.2.1,
    isGameOver := bs.2.2.2.1, winningCombination := bs.2.2.2.2,
    currentPlayer := some g.getCurrentPlayer,
    players := g.getPlayers,
    isGameActive := g.gameActive,
    winningPlayer := winningPlayer,
    gameHistory := g.gameHistory,
    startTime := g.startTime,
    endTime := g.endTime,
    gameDuration :=
      match g.endTime, g.startTime with
      | some e, some s => some ((e : Int) - (s : Int))
      | _, _ => none }

/-- The object `Game.makeMove` returns: `{ success, error?, gameState }`. -/
structure MoveResult where
  success : Bool
  error : Option String
  gameState : GameState
deriving DecidableEq, Repr

/-- The state-update half of `Game.makeMove`'s successful-placement branch,
with `b` the board returned by `setMark`: record the move, evaluate
winner/fullness, then either end the game (no index flip) or flip
`currentPlayerIndex`. -/
def Game.applyMove (g : Game) (now : Nat) (index : Int) (b : Gameboard) : Game :=
  let currentPlayer := g.getCurrentPlayer
  let hist := g.gameHistory ++
    [{ player := currentPlayer.name, symbol := currentPlayer.symbol,
       position := index, timestamp := now }]
  if truthyStr b.checkWinner || b.isFull then
    { g with gameboard := b, gameHistory := hist,
             gameActive := false, endTime := some now }
  else
    { g with gameboard := b, gameHistory := hist,
             currentPlayerIndex := if g.currentPlayerIndex = 0 then 1 else 0 }

/-- Model of `Game.makeMove(index)`: rejects when inactive; delegates to
`Gameboard.setMark` (whose throw for a bad index or symbol propagates
uncaught — the `Except.error` case); on an occupied cell reports failure;
on a successful placement applies `Game.applyMove` and reports success. -/
def Game.makeMove (g : Game) (now : Nat) (index : Int) :
    Except String MoveResult × Game :=
  if !g.gameActive then
    (Except.ok { success := false, error := some "Game is not active",
                 gameState := g.getGameState }, g)
  else
    match g.gameboard.setMark index g.getCurrentPlayer.symbol with
    | (Except.error e, _) => (Except.error e, g)
    | (Except.ok false, _) =>
        (Except.ok { success := false, error := some "Position already occupied",
                     gameState := g.getGameState }, g)
    | (Except.ok true, b) =>
        (Except.ok { success := true, error := none,
                     gameState := (g.applyMove now index b).getGameState },
         g.applyMove now index b)

/-- Model of `Game.resetGame`: back to the inactive initial state. -/
def Game.resetGame (g : Game) : Game :=
  { g with currentPlayerIndex := 0, gameActive := false, gameHistory := [],
           startTime := none, endTime := none,
           gameboard := g.gameboard.reset }

/-- Model of `Game.restartGame`: clears index, history and board, then runs
`startGame`. -/
def Game.restartGame (g : Game) (now : Nat) : Game :=
  Game.startGame
    { g with currentPlayerIndex := 0, gameHistory := [],
             gameboard := g.gameboard.reset } now

/-- The object `Game.toJSON` returns. -/
structure GameJSON where
  players : (String × String) × (String × String)
  gameboard : Option (List String)
  currentPlayerIndex : Nat
  gameActive : Bool
  gameHistory : List Move
  startTime : Option Nat
  endTime : Option Nat
deriving DecidableEq, Repr

/-- Model of `Game.toJSON`: serializes both players, the board, and the scalar
fields. -/
def Game.toJSON (g : Game) : GameJSON :=
  { players := (g.player1.toJSON, g.player2.toJSON),
    gameboard := g.gameboard.toJSON,
    currentPlayerIndex := g.currentPlayerIndex,
    gameActive := g.gameActive,
    gameHistory := g.gameHistory,
    startTime := g.startTime,
    endTime := g.endTime }

/-- Model of `Game.fromJSON(data, Player, Gameboard)`: rebuilds players and board,
then restores the scalar fields with JS default-on-falsy reads:
`data.currentPlayerIndex || 0` (identity on a natural number),
`data.gameActive || false`, `data.gameHistory || []` (an array, even an
empty one, is truthy, so this is the array itself), and
`data.startTime ? new Date(data.startTime) : null`. -/
def Game.fromJSON (data : GameJSON) : Game :=
  let p1 := Player.fromJSON data.players.1
  let p2 := Player.fromJSON data.players.2
  let gameboard := Gameboard.fromJSON data.gameboard
  { player1 := p1, player2 := p2, gameboard := gameboard,
    currentPlayerIndex :=
      if data.currentPlayerIndex = 0 then 0 else data.currentPlayerIndex,
    gameActive := data.gameActive || false,
    gameHistory := data.gameHistory,
    startTime := match data.startTime with | some t => some t | none => none,
    endTime := match data.endTime with | some t => some t | none => none }

/-- Game states reachable through the engine's public operations, starting
from the constructor applied to a fresh board (every construction site in
the repository passes `new Gameboard()`). -/
inductive Game.Reachable : Game → Prop
  | init (p1 p2 : Player) : Game.Reachable (Game.new p1 p2 Gameboard.new)
  | start (g : Game) (now : Nat) :
      Game.Reachable g → Game.Reachable (g.startGame now)
  | move (g : Game) (now : Nat) (i : Int) :
      Game.Reachable g → Game.Reachable (g.makeMove now i).2
  | reset (g : Game) : Game.Reachable g → Game.Reachable g.resetGame
  | restart (g : Game) (now : Nat) :
      Game.Reachable g → Game.Reachable (g.restartGame now)

/-- Game states reachable from some `startGame` call through `makeMove`
calls only (the domain of the move-count invariant). -/
inductive Game.Started : Game → Prop
  | start (g : Game) (now : Nat) : Game.Started (g.startGame now)
  | move (g : Game) (now : Nat) (i : Int) :
      Game.Started g → Game.Started (g.makeMove now i).2

/-- The payload of a returned (non-thrown) `makeMove` result. -/
def okResult : Except String MoveResult → Option MoveResult
  | Except.ok r => some r
  | Except.error _ => none

/-- A `makeMove` call was accepted: it returned (did not throw) and the
returned record carries `success: true`. -/
def moveAccepted (r : Except String MoveResult) : Bool :=
  match r with
  | Except.ok r => r.success
  | Except.error _ => false

/-- A `makeMove` call was rejected: it returned (did not throw) a record
carrying `success: false`. -/
def moveRejected (r : Except String MoveResult) : Bool :=
  match r with
  | Except.ok r => !r.success
  | Except.error _ => false

/-- Sample players used by the concrete witnesses below. -/
def alice : Player := Player.construct "Alice" "X"

def bob : Player := Player.construct "Bob" "O"

/-- A freshly constructed game (inactive). -/
def freshGame : Game := Game.new alice bob Gameboard.new

/-- A just-started game: active, empty board, Alice (X) to move. -/
def demoGame : Game := freshGame.startGame 0

/-- Replay a list of move indices through `makeMove` (all stamped at
time 1), keeping the final state. -/
def playMoves (g : Game) (moves : List Int) : Game :=
  moves.foldl (fun h i => (h.makeMove 1 i).2) g

/-- A default `MoveResult` used only to extract concrete payloads in
witnesses. -/
def fallbackResult : MoveResult :=
  { success := false, error := none, gameState := freshGame.getGameState }

/-- Model of `demoGame` after Alice takes cell 0 (Bob to move). -/
def demoAfter0 : Game := (demoGame.makeMove 1 0).2

/-- The concrete returned record of `demoGame.makeMove 1 4`. -/
def demoMoveRes : MoveResult :=
  (okResult ((demoGame.makeMove 1 4).1)).getD fallbackResult

/-- The move-count invariant: the board holds its nine cells and each of
them is accounted for either by a history entry or by an empty position. -/
def movesInv (g : Game) : Prop :=
  g.gameboard.board.length = 9 ∧
    g.gameHistory.length + g.gameboard.getEmptyPositions.length = 9

end TicTacToe

namespace TicTacToe

theorem lineMatches_iff (b : List String) (t : Nat × Nat × Nat) :
    lineMatches b t = true ↔ winningLine b t := by
  simp [lineMatches, winningLine, Bool.and_eq_true, and_assoc]

theorem isSome_option_map {α β : Type} (f : α → β) (o : Option α) :
    (Option.map f o).isSome = o.isSome := by
  cases o <;> rfl

/-- C1: `checkWinner` is non-null iff one of the 8 fixed triples is
uniform and non-empty; `getWinningCombination` is non-null under exactly
the same condition; and a returned triple's three cells all hold the mark
returned by `checkWinner`. -/
theorem checkWinner_getWinningCombination_consistent (g : Gameboard) :
    (g.checkWinner.isSome ↔ ∃ t ∈ winningCombinations, winningLine g.board t) ∧
    (g.getWinningCombination.isSome ↔ g.checkWinner.isSome) ∧
    (∀ a b c, g.getWinningCombination = some (a, b, c) →
      g.checkWinner = some (cellAt g.board a) ∧
        cellAt g.board a ≠ "" ∧
        cellAt g.board b = cellAt g.board a ∧ cellAt g.board c = cellAt g.board a) := by
  refine ⟨?_, ?_, ?_⟩
  · rw [Gameboard.checkWinner, isSome_option_map]
    rw [List.find?_isSome]
    constructor
    · rintro ⟨t, ht, hp⟩
      exact ⟨t, ht, (lineMatches_iff g.board t).mp hp⟩
    · rintro ⟨t, ht, hp⟩
      exact ⟨t, ht, (lineMatches_iff g.board t).mpr hp⟩
  · rw [Gameboard.checkWinner, isSome_option_map, Gameboard.getWinningCombination]
  · intro a b c h
    have hp : lineMatches g.board (a, b, c) = true :=
      List.find?_some (p := lineMatches g.board) h
    have hw := (lineMatches_iff g.board (a, b, c)).mp hp
    refine ⟨?_, hw.1, hw.2.1.symm, hw.2.2.symm⟩
    rw [Gameboard.checkWinner, Gameboard.getWinningCombination] at *
    rw [h]
    rfl

/-- Witness for C1: on the board where X owns the top row, the theorem
yields the winning mark at the combination `(0, 1, 2)`. -/
theorem checkWinner_getWinningCombination_consistent_witness :
    (Gameboard.mk ["X", "X", "X", "O", "O", "", "", "", ""]).checkWinner
        = some (cellAt ["X", "X", "X", "O", "O", "", "", "", ""] 0) ∧
      cellAt ["X", "X", "X", "O", "O", "", "", "", ""] 0 ≠ "" ∧
      cellAt ["X", "X", "X", "O", "O", "", "", "", ""] 1
        = cellAt ["X", "X", "X", "O", "O", "", "", "", ""] 0 ∧
      cellAt ["X", "X", "X", "O", "O", "", "", "", ""] 2
        = cellAt ["X", "X", "X", "O", "O", "", "", "", ""] 0 :=
  (checkWinner_getWinningCombination_consistent
    (Gameboard.mk ["X", "X", "X", "O", "O", "", "", "", ""])).2.2 0 1 2 (by decide)

theorem setMark_invalid_index (g : Gameboard) (i : Int) (s : String)
    (hinv : isValidIndex i = false) :
    g.setMark i s = (Except.error "Invalid board index", g) := by
  simp [Gameboard.setMark, hinv]

theorem setMark_occupied (g : Gameboard) (i : Int) (s : String)
    (hv : isValidIndex i = true) (hs : s = "X" ∨ s = "O")
    (hocc : cellAt g.board i.toNat ≠ "") :
    g.setMark i s = (Except.ok false, g) := by
  rcases hs with h | h <;> simp [Gameboard.setMark, hv, h, hocc]

theorem setMark_ok_true_inv (g : Gameboard) (i : Int) (s : String) (b : Gameboard)
    (h : g.setMark i s = (Except.ok true, b)) :
    isValidIndex i = true ∧ (s = "X" ∨ s = "O") ∧ cellAt g.board i.toNat = "" ∧
      b = Gameboard.mk (g.board.set i.toNat s) := by
  unfold Gameboard.setMark at h
  split_ifs at h with h1 h2 h3
  · exact absurd h (by simp)
  · exact absurd h (by simp)
  · refine ⟨by simpa using h1, or_iff_not_imp_left.mpr (by simpa using h2),
      by simpa using h3, ?_⟩
    simpa using h.symm
  · exact absurd h (by simp)

theorem applyMove_fields (g : Game) (now : Nat) (i : Int) (b : Gameboard) :
    (g.applyMove now i b).gameboard = b ∧
    (g.applyMove now i b).gameHistory = g.gameHistory ++
      [{ player := g.getCurrentPlayer.name, symbol := g.getCurrentPlayer.symbol,
         position := i, timestamp := now }] ∧
    (g.applyMove now i b).player1 = g.player1 ∧
    (g.applyMove now i b).player2 = g.player2 := by
  unfold Game.applyMove
  split <;> simp

/-- C5: on a game that is not active, `makeMove` returns (does not throw)
a `Game is not active` failure carrying the unchanged snapshot, and the
whole game state — board, history, current player index, active flag and
timestamps — is unchanged. -/
theorem makeMove_inactive_no_mutation (g : Game) (now : Nat) (i : Int)
    (h : g.gameActive = false) :
    g.makeMove now i =
      (Except.ok { success := false, error := some "Game is not active",
                   gameState := g.getGameState }, g) := by
  simp [Game.makeMove, h]

/-- Witness for C5: a freshly constructed (never started) game rejects a
move at index 0 without any mutation. -/
theorem makeMove_inactive_no_mutation_witness :
    freshGame.makeMove 1 0 =
      (Except.ok { success := false, error := some "Game is not active",
                   gameState := freshGame.getGameState }, freshGame) :=
  makeMove_inactive_no_mutation freshGame 1 0 rfl

/-- C3: on an active game whose current player carries one of the two
canonical marks, a move at an in-range index whose cell is occupied
returns (does not throw) a `Position already occupied` failure and leaves
the game — board, history, current player index, active flag — unchanged. -/
theorem makeMove_occupied_reports_failure (g : Game) (now : Nat) (i : Int)
    (hact : g.gameActive = true)
    (hsym : g.getCurrentPlayer.symbol = "X" ∨ g.getCurrentPlayer.symbol = "O")
    (hv : isValidIndex i = true)
    (hocc : cellAt g.gameboard.board i.toNat ≠ "") :
    g.makeMove now i =
      (Except.ok { success := false, error := some "Position already occupied",
                   gameState := g.getGameState }, g) := by
  have hsm : g.gameboard.setMark i g.getCurrentPlayer.symbol
      = (Except.ok false, g.gameboard) :=
    setMark_occupied g.gameboard i g.getCurrentPlayer.symbol hv hsym hocc
  simp [Game.makeMove, hact, hsm]

/-- Witness for C3: after Alice takes cell 0, Bob's move at cell 0 is
rejected as occupied with no state change. -/
theorem makeMove_occupied_reports_failure_witness :
    demoAfter0.makeMove 1 0 =
      (Except.ok { success := false, error := some "Position already occupied",
                   gameState := demoAfter0.getGameState }, demoAfter0) :=
  makeMove_occupied_reports_failure demoAfter0 1 0 (by decide)
    (Or.inr (by decide)) (by decide) (by decide)

/-- C6 (amended): on an active game, `makeMove` with an out-of-range index
does NOT return a structured `InvalidIndex` result: the
`Invalid board index` error thrown by `Gameboard.setMark` propagates out
of `makeMove` uncaught (the game state itself is left unchanged). -/
theorem makeMove_invalid_index_throws (g : Game) (now : Nat) (i : Int)
    (hact : g.gameActive = true) (hinv : isValidIndex i = false) :
    g.makeMove now i = (Except.error "Invalid board index", g) := by
  have hsm : g.gameboard.setMark i g.getCurrentPlayer.symbol
      = (Except.error "Invalid board index", g.gameboard) :=
    setMark_invalid_index g.gameboard i g.getCurrentPlayer.symbol hinv
  simp [Game.makeMove, hact, hsm]

/-- Witness for C6 (amended): index 9 on a just-started game. -/
theorem makeMove_invalid_index_throws_witness :
    demoGame.makeMove 1 9 = (Except.error "Invalid board index", demoGame) :=
  makeMove_invalid_index_throws demoGame 1 9 rfl (by decide)

/-- Counterexample for C6 as stated: on the just-started game, `makeMove 9`
produces a thrown error, not a structured result record — there is no
returned `MoveResult` at all for the caller to inspect. -/
theorem makeMove_invalid_index_thrown_cex :
    (demoGame.makeMove 1 9).1 = Except.error "Invalid board index" ∧
      okResult (demoGame.makeMove 1 9).1 = none :=
  ⟨rfl, rfl⟩

/-- C7 (code bug): the `Player` constructor assigns the raw arguments into
`_name` / `_symbol` and never validates, so `new Player('', 'O')` and
`new Player('Bob', 'Z')` succeed and hold the invalid values — while the
`name` / `symbol` setters do reject exactly those values, and the repo's
own tests assert that these constructions throw. -/
theorem player_construct_skips_validation :
    Player.construct "" "O" = { name := "", symbol := "O" } ∧
    Player.construct "Bob" "Z" = { name := "Bob", symbol := "Z" } ∧
    (Player.construct "Bob" "O").setName ""
      = Except.error "Player name must be a non-empty string" ∧
    (Player.construct "Bob" "O").setSymbol "Z"
      = Except.error "Player symbol must be either X or O" :=
  ⟨rfl, rfl, rfl, rfl⟩

/-- C10: `Gameboard.fromJSON` yields the fresh all-empty board whenever the
`board` datum is missing/non-array (`none`) or has length other than 9,
and copies the datum exactly when it is a 9-element array. -/
theorem fromJSON_board_guard :
    Gameboard.fromJSON none = Gameboard.new ∧
    (∀ l : List String, l.length ≠ 9 → Gameboard.fromJSON (some l) = Gameboard.new) ∧
    (∀ l : List String, l.length = 9 → Gameboard.fromJSON (some l) = Gameboard.mk l) ∧
    Gameboard.new.board = List.replicate 9 "" := by
  refine ⟨rfl, ?_, ?_, rfl⟩ <;> intro l h <;> simp [Gameboard.fromJSON, h]

/-- C2: an accepted (`success: true`) move that leaves the game active
flips `currentPlayerIndex` to the other player — exactly one flip, so
consecutive accepted moves while active alternate between the two
players — and any rejected (`success: false`) move leaves
`currentPlayerIndex` untouched. -/
theorem acceptedMove_alternation (g : Game) (now : Nat) (i : Int) :
    (moveAccepted (g.makeMove now i).1 = true →
      ((g.makeMove now i).2).gameActive = true →
      ((g.makeMove now i).2).currentPlayerIndex
        = (if g.currentPlayerIndex = 0 then 1 else 0)) ∧
    (moveRejected (g.makeMove now i).1 = true →
      ((g.makeMove now i).2).currentPlayerIndex = g.currentPlayerIndex) := by
  by_cases hact : g.gameActive = true
  · rcases hsm : g.gameboard.setMark i g.getCurrentPlayer.symbol with ⟨e | bv, b⟩
    · constructor <;> intro h1 <;>
        simp [Game.makeMove, hact, hsm, moveAccepted, moveRejected] at h1
    · cases bv
      · constructor
        · intro h1
          simp [Game.makeMove, hact, hsm, moveAccepted] at h1
        · intro _
          simp [Game.makeMove, hact, hsm]
      · cases hterm : truthyStr b.checkWinner || b.isFull
        · constructor
          · intro _ _
            simp [Game.makeMove, hact, hsm, Game.applyMove, hterm]
          · intro h1
            simp [Game.makeMove, hact, hsm, moveRejected] at h1
        · constructor
          · intro _ h2
            simp [Game.makeMove, hact, hsm, Game.applyMove, hterm] at h2
          · intro h1
            simp [Game.makeMove, hact, hsm, moveRejected] at h1
  · have hact' : g.gameActive = false := by simpa using hact
    constructor
    · intro h1
      simp [Game.makeMove, hact', moveAccepted] at h1
    · intro _
      simp [Game.makeMove, hact']

/-- Witness for C2: on the just-started game, the accepted move at cell 4
keeps the game active and flips the index from 0 to 1. -/
theorem acceptedMove_alternation_witness :
    ((demoGame.makeMove 1 4).2).currentPlayerIndex
      = (if demoGame.currentPlayerIndex = 0 then 1 else 0) :=
  (acceptedMove_alternation demoGame 1 4).1 (by decide) (by decide)

/-- C9 (amended): the snapshot of an accepted move always reports
`players[currentPlayerIndex]` (never null) as `currentPlayer`: the player
who just moved when the move ended the game (the index is not advanced on
a terminal move), and the next player to move while the game stays
active. -/
theorem accepted_snapshot_current_player (g : Game) (now : Nat) (i : Int)
    (res : MoveResult)
    (h : okResult (g.makeMove now i).1 = some res) (hs : res.success = true) :
    res.gameState.currentPlayer = some ((g.makeMove now i).2).getCurrentPlayer ∧
    (res.gameState.isGameActive = false →
      ((g.makeMove now i).2).getCurrentPlayer = g.getCurrentPlayer) ∧
    (res.gameState.isGameActive = true →
      ((g.makeMove now i).2).currentPlayerIndex
        = (if g.currentPlayerIndex = 0 then 1 else 0)) := by
  by_cases hact : g.gameActive = true
  · rcases hsm : g.gameboard.setMark i g.getCurrentPlayer.symbol with ⟨e | bv, b⟩
    · simp [Game.makeMove, hact, hsm, okResult] at h
    · cases bv
      · simp [Game.makeMove, hact, hsm, okResult] at h
        rw [← h] at hs
        simp at hs
      · simp [Game.makeMove, hact, hsm, okResult] at h
        rw [← h]
        simp only [Game.makeMove, hact, hsm]
        cases hterm : truthyStr b.checkWinner || b.isFull <;>
          simp [Game.getGameState, Game.applyMove, Game.getCurrentPlayer, hterm,
            hact]
  · have hact' : g.gameActive = false := by simpa using hact
    simp [Game.makeMove, hact', okResult] at h
    rw [← h] at hs
    simp at hs

/-- Witness for C9 (amended): the accepted move of the just-started game at
cell 4 reports the next player in its snapshot. -/
theorem accepted_snapshot_current_player_witness :
    demoMoveRes.gameState.currentPlayer
        = some ((demoGame.makeMove 1 4).2).getCurrentPlayer ∧
      (demoMoveRes.gameState.isGameActive = false →
        ((demoGame.makeMove 1 4).2).getCurrentPlayer = demoGame.getCurrentPlayer) ∧
      (demoMoveRes.gameState.isGameActive = true →
        ((demoGame.makeMove 1 4).2).currentPlayerIndex
          = (if demoGame.currentPlayerIndex = 0 then 1 else 0)) :=
  accepted_snapshot_current_player demoGame 1 4 demoMoveRes (by decide) (by decide)

/-- Counterexample for C9 as stated: the move that wins the game for Alice
is terminal (`isGameActive` is false afterwards), yet the returned snapshot
reports Alice — not null — as the current player. -/
theorem terminal_snapshot_reports_mover_cex :
    (okResult (((playMoves demoGame [0, 3, 1, 4]).makeMove 1 2).1)).map
        (fun r => (r.gameState.isGameActive, r.gameState.currentPlayer))
      = some (false, some (Player.construct "Alice" "X")) := by
  decide

theorem enumFrom_empty_filterMap_length (l : List String) (n : Nat) :
    ((l.enumFrom n).filterMap
        (fun p => if p.2 == "" then some p.1 else none)).length
      = l.countP (fun c => c == "") := by
  induction l generalizing n with
  | nil => simp
  | cons x xs ih =>
    by_cases hx : x = "" <;>
      simp [List.enumFrom, List.filterMap_cons, hx, List.countP_cons] <;>
      simpa using ih (n + 1)

theorem getEmptyPositions_length (g : Gameboard) :
    g.getEmptyPositions.length = g.board.countP (fun c => c == "") := by
  simpa [Gameboard.getEmptyPositions, List.enum]
    using enumFrom_empty_filterMap_length g.board 0

theorem countP_set_empty_cell (l : List String) (j : Nat) (v : String)
    (hj : j < l.length) (he : l.getD j "" = "") (hv : (v == "") = false) :
    (l.set j v).countP (fun c => c == "") + 1 = l.countP (fun c => c == "") := by
  induction l generalizing j with
  | nil => simp at hj
  | cons x xs ih =>
    cases j with
    | zero =>
      have hx : x = "" := by simpa using he
      simp [hx, List.countP_cons, hv]
    | succ j =>
      have hj' : j < xs.length := by simpa using hj
      have he' : xs.getD j "" = "" := by simpa using he
      have := ih j hj' he'
      simp [List.countP_cons]
      omega

theorem movesInv_start (g : Game) (now : Nat) : movesInv (g.startGame now) :=
  ⟨rfl, rfl⟩

theorem movesInv_makeMove (g : Game) (now : Nat) (i : Int) (h : movesInv g) :
    movesInv ((g.makeMove now i).2) := by
  by_cases hact : g.gameActive = true
  · rcases hsm : g.gameboard.setMark i g.getCurrentPlayer.symbol with ⟨e | bv, b⟩
    · simpa [Game.makeMove, hact, hsm] using h
    · cases bv
      · simpa [Game.makeMove, hact, hsm] using h
      · obtain ⟨hval, hsymOr, hcell, rfl⟩ := setMark_ok_true_inv _ _ _ _ hsm
        have hv : (g.getCurrentPlayer.symbol == "") = false := by
          rcases hsymOr with h' | h' <;> simp [h']
        have hle : 0 ≤ i ∧ i ≤ 8 := of_decide_eq_true hval
        have h8 : i.toNat ≤ 8 := Int.toNat_le.mpr hle.2
        have h9 := h.1
        have hj : i.toNat < g.gameboard.board.length := by omega
        have h2 : (g.makeMove now i).2
            = g.applyMove now i
                (Gameboard.mk (g.gameboard.board.set i.toNat
                  g.getCurrentPlayer.symbol)) := by
          simp [Game.makeMove, hact, hsm]
        have hfields := applyMove_fields g now i
          (Gameboard.mk (g.gameboard.board.set i.toNat g.getCurrentPlayer.symbol))
        have e1 := getEmptyPositions_length
          (Gameboard.mk (g.gameboard.board.set i.toNat g.getCurrentPlayer.symbol))
        have e2 := getEmptyPositions_length g.gameboard
        have e3 := countP_set_empty_cell g.gameboard.board i.toNat
          g.getCurrentPlayer.symbol hj (by simpa [cellAt] using hcell) hv
        have h4 := h.2
        rw [e2] at h4
        constructor
        · rw [h2, hfields.1]
          simpa using h.1
        · rw [h2, hfields.2.1, hfields.1, e1, List.length_append]
          simp only [List.length_cons, List.length_nil]
          omega
  · have hact' : g.gameActive = false := by simpa using hact
    simpa [Game.makeMove, hact'] using h

theorem movesInv_started (g : Game) (h : g.Started) : movesInv g := by
  induction h with
  | start g now => exact movesInv_start g now
  | move g now i _ ih => exact movesInv_makeMove g now i ih

/-- C4: in every state reached from a `startGame` call by any sequence of
`makeMove` calls, the history length plus the number of empty positions is
exactly 9. -/
theorem move_count_invariant (g : Game) (h : g.Started) :
    g.gameHistory.length + g.gameboard.getEmptyPositions.length = 9 :=
  (movesInv_started g h).2

/-- Witness for C4: the invariant on the just-started game. -/
theorem move_count_invariant_witness :
    demoGame.gameHistory.length + demoGame.gameboard.getEmptyPositions.length
      = 9 :=
  move_count_invariant demoGame (Game.Started.start freshGame 0)

theorem movesInv_reachable (g : Game) (h : g.Reachable) : movesInv g := by
  induction h with
  | init p1 p2 => exact ⟨rfl, rfl⟩
  | start g now _ _ => exact movesInv_start g now
  | move g now i _ ih => exact movesInv_makeMove g now i ih
  | reset g _ _ => exact ⟨rfl, rfl⟩
  | restart g now _ _ => exact movesInv_start _ now

theorem fromJSON_toJSON_id (g : Game) (h9 : g.gameboard.board.length = 9) :
    Game.fromJSON (Game.toJSON g) = g := by
  rcases g with ⟨⟨n1, s1⟩, ⟨n2, s2⟩, ⟨bd⟩, idx, act, hist, st, et⟩
  simp only at h9
  simp only [Game.toJSON, Game.fromJSON, Player.toJSON, Player.fromJSON,
    Player.construct, Gameboard.toJSON, Gameboard.fromJSON, Gameboard.getBoard,
    h9]
  cases st <;> cases et <;> by_cases hidx : idx = 0 <;>
    simp [hidx, Bool.or_false, h9]

/-- C8: for every reachable game, serializing with `toJSON` and rebuilding
with `fromJSON` yields a game on which every `makeMove` call produces
exactly the same returned/thrown result and the same successor state as on
the original game. -/
theorem roundtrip_preserves_makeMove (g : Game) (h : g.Reachable)
    (now : Nat) (i : Int) :
    (Game.fromJSON (Game.toJSON g)).makeMove now i = g.makeMove now i := by
  rw [fromJSON_toJSON_id g (movesInv_reachable g h).1]

/-- Witness for C8: the round trip of the just-started game replays the
move at cell 4 identically. -/
theorem roundtrip_preserves_makeMove_witness :
    (Game.fromJSON (Game.toJSON demoGame)).makeMove 1 4
      = demoGame.makeMove 1 4 :=
  roundtrip_preserves_makeMove demoGame
    (Game.Reachable.start freshGame 0 (Game.Reachable.init alice bob)) 1 4

/-- Witness for C10: a 1-element datum is discarded for a fresh board; a
9-element datum is copied verbatim. -/
theorem fromJSON_board_guard_witness :
    Gameboard.fromJSON (some ["X"]) = Gameboard.new ∧
    Gameboard.fromJSON (some (List.replicate 9 "X"))
      = Gameboard.mk (List.replicate 9 "X") :=
  ⟨fromJSON_board_guard.2.1 ["X"] (by decide),
   fromJSON_board_guard.2.2.1 (List.replicate 9 "X") (by decide)⟩

end TicTacToe
